import Mathlib

/-!
Shallow embedding of the VCP pattern-evaluation engine (scanner_core.py).

Price data is modelled exactly, with rational numbers in place of Python
floats and a frame as a date-sorted list of bars that has already passed
dropna (every field present).  The date index is modelled as a natural
number per bar.  All functions below are translated line by line from
scanner_core.py; each definition names the source function and lines it
embeds.
-/

set_option maxRecDepth 100000

namespace Scanner

/-- Strategy configuration constants, scanner_core.py lines 13-16. -/
def VCP_LOOKBACK_DAYS : Nat := 10

/-- DEFAULT_TIGHTNESS = 0.035, scanner_core.py line 14. -/
def DEFAULT_TIGHTNESS : ℚ := 35 / 1000

/-- GAP_THRESHOLD = 0.04, scanner_core.py line 15. -/
def GAP_THRESHOLD : ℚ := 4 / 100

/-- MIN_VOLUME_AVG = 500000, scanner_core.py line 16. -/
def MIN_VOLUME_AVG : ℚ := 500000

/-- One row of an OHLCV frame after dropna: the fields the engine reads
(Open, Close, Volume) plus the date index, modelled as a Nat. -/
structure Bar where
  date : Nat
  Open : ℚ
  Close : ℚ
  Volume : ℚ
deriving DecidableEq

instance : Inhabited Bar := ⟨⟨0, 0, 0, 0⟩⟩

/-- Positional row access, df.iloc[i]; out-of-range reads return the
default bar (they never occur on the paths the source takes). -/
def barAt (w : List Bar) (i : Nat) : Bar := w.getD i default

/-- Last element of a price or volume column, series.iloc[-1]. -/
def lastQ (xs : List ℚ) : ℚ := xs.getD (xs.length - 1) 0

/-- Date of the last row, df.index[-1].date(). -/
def lastDate (df : List Bar) : Nat := (barAt df (df.length - 1)).date

/-- series.tail(n).mean(): arithmetic mean of the last n elements
(of all elements when the series is shorter than n). -/
def tailMean (xs : List ℚ) (n : Nat) : ℚ :=
  (xs.drop (xs.length - n)).sum / ((xs.drop (xs.length - n)).length : ℚ)

/-- series.max() over a nonempty column (0 for the empty series). -/
def listMax : List ℚ → ℚ
  | [] => 0
  | x :: xs => xs.foldl max x

/-- series.min() over a nonempty column (0 for the empty series). -/
def listMin : List ℚ → ℚ
  | [] => 0
  | x :: xs => xs.foldl min x

/-- Overnight gap magnitude of session i against session i-1,
abs((open_today - close_prev) / close_prev), scanner_core.py line 77. -/
def gapAt (w : List Bar) (i : Nat) : ℚ :=
  |((barAt w i).Open - (barAt w (i - 1)).Close) / (barAt w (i - 1)).Close|

/-- Session i of window w is a qualifying gap session: its predecessor
closes nonzero (line 73 skips zero closes) and the gap strictly exceeds
the threshold (line 79). -/
def qualifiesAt (w : List Bar) (θ : ℚ) (i : Nat) : Prop :=
  (barAt w (i - 1)).Close ≠ 0 ∧ θ < gapAt w i

instance (w : List Bar) (θ : ℚ) (i : Nat) : Decidable (qualifiesAt w θ i) := by
  unfold qualifiesAt; exact instDecidableAnd

/-- The backward scan of apply_gap_reset_logic, scanner_core.py lines
60-82: for i = n, n-1, ..., 1 examine session i against session i-1,
skip zero previous closes, and stop at the first session whose gap
strictly exceeds the threshold, returning its index and gap size. -/
def scanForReset (w : List Bar) (θ : ℚ) : Nat → Option (Nat × ℚ)
  | 0 => none
  | i + 1 =>
    if (barAt w i).Close = 0 then scanForReset w θ i
    else if θ < gapAt w (i + 1) then some (i + 1, gapAt w (i + 1))
    else scanForReset w θ i

/-- Return value of apply_gap_reset_logic: the truncated-or-full Close
series, the reset flag, the reset date and the gap magnitude. -/
structure GapResult where
  closes : List ℚ
  is_reset : Bool
  reset_date : Option Nat
  gap_size : ℚ
deriving DecidableEq

/-- apply_gap_reset_logic, scanner_core.py lines 51-92.  The input
window is date-sorted (the sort_index call on line 58 is the identity
for the frames every call site passes). -/
def apply_gap_reset_logic (w : List Bar) (θ : ℚ) : GapResult :=
  match scanForReset w θ (w.length - 1) with
  | some (r, g) => ⟨(w.drop r).map Bar.Close, true, some (barAt w r).date, g⟩
  | none => ⟨w.map Bar.Close, false, none, 0⟩

/-- math.ceil(gap_size * 100) / 100.0, scanner_core.py lines 127 and 200. -/
def ceilCent (g : ℚ) : ℚ := (⌈g * 100⌉ : ℚ) / 100

/-- The tightness threshold chosen on scanner_core.py lines 125-130 (and
identically on lines 199-204): the rounded-up gap under a reset, the
fixed default otherwise. -/
def dynamicThreshold (gr : GapResult) : ℚ :=
  if gr.is_reset then ceilCent gr.gap_size else DEFAULT_TIGHTNESS

/-- The Close column of a frame. -/
def closesOf (df : List Bar) : List ℚ := df.map Bar.Close

/-- The Volume column of a frame. -/
def volsOf (df : List Bar) : List ℚ := df.map Bar.Volume

/-- close.iloc[-1], the current close. -/
def cNow (df : List Bar) : ℚ := lastQ (closesOf df)

/-- ta.sma(close, 60).iloc[-1]: mean of the last 60 closes. -/
def smaNow (df : List Bar) : ℚ := tailMean (closesOf df) 60

/-- ta.sma(close, 60).iloc[-5]: mean of the 60 closes ending at the
fifth-from-last session. -/
def smaPrev (df : List Bar) : ℚ :=
  tailMean ((closesOf df).take ((closesOf df).length - 4)) 60

/-- df.tail(VCP_LOOKBACK_DAYS), the recent window handed to the gap
reset logic, scanner_core.py lines 116 and 190. -/
def recentWindow (df : List Bar) : List Bar :=
  df.drop (df.length - VCP_LOOKBACK_DAYS)

/-- The gap-reset output both evaluation modes compute,
scanner_core.py lines 119 and 191. -/
def gapResult (df : List Bar) : GapResult :=
  apply_gap_reset_logic (recentWindow df) GAP_THRESHOLD

/-- range_pct = (max - min) / current close over the effective window,
scanner_core.py lines 132-136 and 193-196. -/
def rangePct (df : List Bar) : ℚ :=
  (listMax (gapResult df).closes - listMin (gapResult df).closes) / cNow df

/-- vol.tail(20).mean(), scanner_core.py lines 141 and 227. -/
def vol20 (df : List Bar) : ℚ := tailMean (volsOf df) 20

/-- vol.tail(60).mean(), scanner_core.py lines 142 and 228. -/
def vol60 (df : List Bar) : ℚ := tailMean (volsOf df) 60

/-- check_vcp_criteria, scanner_core.py lines 95-148: the fail-fast
evaluation.  The guard len(sma60.dropna()) < 5 of line 106 is the test
df.length - 59 < 5 on a clean frame; the isna guards of line 108 cannot
fire on a clean frame of length at least 65 and have no residue here. -/
def check_vcp_criteria (df : List Bar) : Bool :=
  if df.length < 65 then false
  else if df.length - 59 < 5 then false
  else if cNow df < smaNow df then false
  else if smaNow df ≤ smaPrev df then false
  else if (gapResult df).closes.length < 3 then false
  else if rangePct df > dynamicThreshold (gapResult df) then false
  else if vol20 df ≥ vol60 df then false
  else if vol20 df < MIN_VOLUME_AVG then false
  else true

/-- Lines of the diagnostic report, one constructor per report.append of
diagnose_single_stock (scanner_core.py lines 176-241), carrying the data
the corresponding text interpolates.  Rendering the fixed text around
that data is deterministic, so report equality is modelled as equality
of these lines. -/
inductive RLine where
  | trendHeader
  | priceAboveMA
  | priceBelowMA
  | maRising
  | maFalling
  | tightHeader
  | gapDetected
  | gapInfo (resetDate : Option Nat) (gap : ℚ)
  | resetLen (n : Nat)
  | normalMode
  | rangeInfo (range : ℚ)
  | threshDynamic (θ : ℚ)
  | threshStandard (θ : ℚ)
  | tooShortLine
  | tightOkLine
  | tightFailLine
  | volHeader
  | volOkLine
  | volFailLine
  | liqOkLine
  | liqFailLine
deriving DecidableEq

/-- Result text of diagnose_single_stock: either the early insufficient
data message of line 160 or the assembled report of line 244.  The early
returns for unparseable numeric data (line 166) and a None sma (line
172) cannot fire on a clean typed frame and have no residue here. -/
inductive DiagMsg where
  | insufficientData (validRows : Nat)
  | report (lines : List RLine)
deriving DecidableEq

/-- Trend sub-condition of line 177, c_now > ma60_now. -/
def trendPriceOk (df : List Bar) : Bool := decide (cNow df > smaNow df)

/-- Trend sub-condition of line 183, ma60_now > ma60_prev. -/
def trendSlopeOk (df : List Bar) : Bool := decide (smaNow df > smaPrev df)

/-- Tightness guard of lines 121 and 217, effective window shorter than 3. -/
def tooShort (df : List Bar) : Bool := decide ((gapResult df).closes.length < 3)

/-- Tightness comparison of lines 138 and 220, range within threshold. -/
def rangeOk (df : List Bar) : Bool :=
  decide (rangePct df ≤ dynamicThreshold (gapResult df))

/-- Volume contraction condition of lines 143 and 231. -/
def volContraction (df : List Bar) : Bool := decide (vol20 df < vol60 df)

/-- Liquidity condition of lines 146 and 238. -/
def liquidityOk (df : List Bar) : Bool := decide (vol20 df ≥ MIN_VOLUME_AVG)

/-- The report lines diagnose_single_stock appends, in source order
(scanner_core.py lines 176-241). -/
def diagLines (df : List Bar) : List RLine :=
  [RLine.trendHeader]
    ++ (if trendPriceOk df then [RLine.priceAboveMA] else [RLine.priceBelowMA])
    ++ (if trendSlopeOk df then [RLine.maRising] else [RLine.maFalling])
    ++ [RLine.tightHeader]
    ++ (if (gapResult df).is_reset then
          [RLine.gapDetected,
           RLine.gapInfo (gapResult df).reset_date (gapResult df).gap_size,
           RLine.resetLen (gapResult df).closes.length]
        else [RLine.normalMode])
    ++ [RLine.rangeInfo (rangePct df)]
    ++ [(if (gapResult df).is_reset then
          RLine.threshDynamic (dynamicThreshold (gapResult df))
        else RLine.threshStandard (dynamicThreshold (gapResult df)))]
    ++ (if tooShort df then [RLine.tooShortLine]
        else if rangeOk df then [RLine.tightOkLine] else [RLine.tightFailLine])
    ++ [RLine.volHeader]
    ++ (if volContraction df then [RLine.volOkLine] else [RLine.volFailLine])
    ++ (if liquidityOk df then [RLine.liqOkLine] else [RLine.liqFailLine])

/-- diagnose_single_stock, scanner_core.py lines 151-245: the exhaustive
evaluation.  df.dropna() on line 158 is the identity on the clean frames
modelled here, so the length test is on the frame itself.  The symbol
argument is accepted and, as in the source body, never read.  The pass
flag is the conjunction of the criteria, exactly the is_pass
accumulation of the source. -/
def diagnose_single_stock (df : List Bar) (_symbol : String) : Bool × DiagMsg :=
  if df.length < 65 then (false, DiagMsg.insufficientData df.length)
  else
    (trendPriceOk df && trendSlopeOk df
       && (!tooShort df && rangeOk df)
       && volContraction df && liquidityOk df,
     DiagMsg.report (diagLines df))

/-- Column layout of a frame the external data provider returns: either
two-level (field, symbol) columns or flat single-level columns.  The
typed bars already carry canonical field names, so the layout tag is the
only residue of the pandas column structure. -/
inductive Raw where
  | multiCols (bars : List Bar)
  | flatCols (bars : List Bar)
deriving DecidableEq

/-- The rows of a returned frame regardless of layout. -/
def Raw.bars : Raw → List Bar
  | .multiCols bs => bs
  | .flatCols bs => bs

/-- Whole-batch download result in scan_market: with group_by=ticker the
provider returns either two-level (ticker, field) columns, modelled as a
per-symbol association list, or a flat single-level frame. -/
inductive BatchData where
  | multi (frames : List (String × List Bar))
  | flat (frame : List Bar)

/-- The per-symbol body of the scan_market batch loop, scanner_core.py
lines 272-289: only a MultiIndex frame is consulted (line 274); a flat
layout falls into the continue of line 277 and the symbol is skipped.  A
missing key raises and is swallowed by the per-symbol except of line
288, another skip.  Column capitalisation (line 279) and dropna (line
280) are identities on the typed clean frames modelled here.  The
symbol survives when its frame is nonempty, its last date equals the
requested date (lines 283-284) and check_vcp_criteria holds. -/
def scanProcessSymbol (data : BatchData) (symbol : String) (targetDate : Nat) : Bool :=
  match data with
  | .flat _ => false
  | .multi frames =>
    match frames.lookup symbol with
    | none => false
    | some df =>
      if df.isEmpty then false
      else if lastDate df ≠ targetDate then false
      else check_vcp_criteria df

/-- The accumulation of valid_symbols over one batch, scanner_core.py
lines 272-287: the symbols of the batch that survive the per-symbol
body. -/
def scanBatch (data : BatchData) (batch : List String) (targetDate : Nat) : List String :=
  batch.filter (fun s => scanProcessSymbol data s targetDate)

/-- symbol_input.upper().strip(), scanner_core.py line 311. -/
def resolveSymbol (symbolInput : String) : String :=
  (symbolInput.map Char.toUpper).trim

/-- symbol.endswith(".TW") or symbol.endswith(".TWO"), lines 312 and 320. -/
def hasExchangeSuffix (s : String) : Bool :=
  s.endsWith ".TW" || s.endsWith ".TWO"

/-- The first download attempt of fetch_and_diagnose, lines 312-315: a
bare symbol gets the primary ".TW" suffix, a suffixed symbol is used as
given. -/
def firstTry (symbol : String) : String :=
  if hasExchangeSuffix symbol then symbol else symbol ++ ".TW"

/-- The download-and-retry sequence of fetch_and_diagnose, lines 317-323:
the first attempt, then, when it came back empty and the symbol was
bare, one retry with the secondary ".TWO" suffix.  Returns the symbol
finally queried together with its result. -/
def selectDownload (provider : String → Raw) (symbol : String) : String × Raw :=
  let d1 := provider (firstTry symbol)
  if d1.bars.isEmpty && !hasExchangeSuffix symbol then
    (symbol ++ ".TWO", provider (symbol ++ ".TWO"))
  else (firstTry symbol, d1)

/-- Column normalisation of fetch_and_diagnose, lines 328-331: two-level
columns are collapsed to their field level, flat columns pass through;
either way the typed rows are unchanged. -/
def normalizeCols : Raw → List Bar
  | .multiCols bs => bs
  | .flatCols bs => bs

/-- Outcome of fetch_and_diagnose, one constructor per return of
scanner_core.py lines 325-349, carrying the data each message
interpolates.  The missing-column return of line 335 cannot fire on a
typed frame and has no residue here. -/
inductive FetchMsg where
  | notFound (symbolInput : String)
  | noValidData
  | dateMismatch (requested : Nat) (actual : Nat)
  | reportMsg (testSymbol : String) (requested : Nat) (msg : DiagMsg)
deriving DecidableEq

/-- fetch_and_diagnose, scanner_core.py lines 304-353, from the point
the provider is consulted: suffix resolution with one retry, the empty
check of line 325, column normalisation, dropna (an identity here), the
empty recheck of line 338, the date alignment check of lines 340-342,
then the diagnostic evaluation wrapped with its header.  The provider
argument stands for yf.download over the fixed date range. -/
def fetch_and_diagnose (provider : String → Raw) (symbolInput : String)
    (targetDate : Nat) : Bool × FetchMsg :=
  let symbol := resolveSymbol symbolInput
  let sel := selectDownload provider symbol
  if sel.2.bars.isEmpty then (false, FetchMsg.notFound symbolInput)
  else
    let df := normalizeCols sel.2
    if df.isEmpty then (false, FetchMsg.noValidData)
    else if lastDate df ≠ targetDate then
      (false, FetchMsg.dateMismatch targetDate (lastDate df))
    else
      let res := diagnose_single_stock df sel.1
      (res.1, FetchMsg.reportMsg sel.1 targetDate res.2)

/-- Boundary frame: 65 clean sessions whose current close exactly equals
the current SMA-60 (both 100), with a rising SMA-60, a flat last-10
window with no gap, and contracting, sufficient volume. -/
def egBar (i : Nat) : Bar :=
  { date := i
    Open := 100
    Close := if i < 5 then 90 else 100
    Volume := if i < 45 then 1000000 else 600000 }

/-- The boundary frame as a list. -/
def Eb : List Bar := (List.range 65).map egBar

/-- Fully passing frame: as the boundary frame but the last close is
101, strictly above the SMA-60, so every criterion of both modes holds. -/
def pBar (i : Nat) : Bar :=
  { date := i
    Open := 100
    Close := if i < 5 then 90 else if i = 64 then 101 else 100
    Volume := if i < 45 then 1000000 else 600000 }

/-- The fully passing frame as a list. -/
def Pf : List Bar := (List.range 65).map pBar

/-- Gap frame: as the passing frame but the last session opens at 150,
a 50 percent overnight gap, so the effective post-reset window is the
single last close. -/
def gBar (i : Nat) : Bar :=
  { date := i
    Open := if i = 64 then 150 else 100
    Close := if i < 5 then 90 else if i = 64 then 101 else 100
    Volume := if i < 45 then 1000000 else 600000 }

/-- The gap frame as a list. -/
def Gf : List Bar := (List.range 65).map gBar

/-- Two-session window with a single qualifying 5 percent gap on its
last session. -/
def wGap : List Bar := [⟨0, 100, 100, 1⟩, ⟨1, 105, 104, 1⟩]

/-- Four-session window with a large old gap (50 percent at session 1)
and a smaller but still qualifying recent gap (7/150 at session 3). -/
def wTwoGaps : List Bar :=
  [⟨0, 100, 100, 1⟩, ⟨1, 150, 150, 1⟩, ⟨2, 150, 150, 1⟩, ⟨3, 157, 157, 1⟩]

lemma scanForReset_none_spec (w : List Bar) (θ : ℚ) :
    ∀ n, scanForReset w θ n = none → ∀ j, 1 ≤ j → j ≤ n → ¬ qualifiesAt w θ j := by
  intro n
  induction n with
  | zero => intro _ j h1 h2; omega
  | succ i ih =>
    intro h j h1 h2
    rw [scanForReset] at h
    by_cases hz : (barAt w i).Close = 0
    · rw [if_pos hz] at h
      rcases Nat.eq_or_lt_of_le h2 with hj | hj
      · subst hj; intro hq; exact hq.1 (by simpa using hz)
      · exact ih h j h1 (by omega)
    · rw [if_neg hz] at h
      by_cases hg : θ < gapAt w (i + 1)
      · rw [if_pos hg] at h; exact absurd h (by simp)
      · rw [if_neg hg] at h
        rcases Nat.eq_or_lt_of_le h2 with hj | hj
        · subst hj; intro hq; exact hg hq.2
        · exact ih h j h1 (by omega)

lemma scanForReset_some_spec (w : List Bar) (θ : ℚ) :
    ∀ n r g, scanForReset w θ n = some (r, g) →
      1 ≤ r ∧ r ≤ n ∧ qualifiesAt w θ r ∧ g = gapAt w r ∧
        ∀ j, r < j → j ≤ n → ¬ qualifiesAt w θ j := by
  intro n
  induction n with
  | zero => intro r g h; exact absurd h (by simp [scanForReset])
  | succ i ih =>
    intro r g h
    rw [scanForReset] at h
    by_cases hz : (barAt w i).Close = 0
    · rw [if_pos hz] at h
      obtain ⟨h1, h2, hq, hg, hmax⟩ := ih r g h
      refine ⟨h1, by omega, hq, hg, ?_⟩
      intro j hj1 hj2
      rcases Nat.eq_or_lt_of_le hj2 with hj | hj
      · subst hj; intro hqq; exact hqq.1 (by simpa using hz)
      · exact hmax j hj1 (by omega)
    · rw [if_neg hz] at h
      by_cases hgap : θ < gapAt w (i + 1)
      · rw [if_pos hgap] at h
        injection h with h
        injection h with ha hb
        subst ha
        subst hb
        exact ⟨by omega, Nat.le_refl _, ⟨hz, by simpa using hgap⟩, by simp, by
          intro j hj1 hj2 _; omega⟩
      · rw [if_neg hgap] at h
        obtain ⟨h1, h2, hq, hg, hmax⟩ := ih r g h
        refine ⟨h1, by omega, hq, hg, ?_⟩
        intro j hj1 hj2
        rcases Nat.eq_or_lt_of_le hj2 with hj | hj
        · subst hj; intro hqq; exact hgap hqq.2
        · exact hmax j hj1 (by omega)

lemma apply_gap_reset_none (w : List Bar) (θ : ℚ)
    (h : ∀ i, 1 ≤ i → i < w.length → ¬ qualifiesAt w θ i) :
    apply_gap_reset_logic w θ = ⟨w.map Bar.Close, false, none, 0⟩ := by
  rcases hs : scanForReset w θ (w.length - 1) with _ | ⟨r, g⟩
  · unfold apply_gap_reset_logic
    rw [hs]
  · obtain ⟨h1, h2, hq, _, _⟩ := scanForReset_some_spec w θ _ r g hs
    exact absurd hq (h r h1 (by omega))

lemma apply_gap_reset_some (w : List Bar) (θ : ℚ) (r : Nat)
    (h1 : 1 ≤ r) (h2 : r < w.length) (hq : qualifiesAt w θ r)
    (hmax : ∀ j, r < j → j < w.length → ¬ qualifiesAt w θ j) :
    apply_gap_reset_logic w θ =
      ⟨(w.drop r).map Bar.Close, true, some (barAt w r).date, gapAt w r⟩ := by
  rcases hs : scanForReset w θ (w.length - 1) with _ | ⟨r', g'⟩
  · exact absurd hq (scanForReset_none_spec w θ _ hs r h1 (by omega))
  · obtain ⟨h1', h2', hq', hg', hmax'⟩ := scanForReset_some_spec w θ _ r' g' hs
    have hrr : r' = r := by
      rcases lt_trichotomy r' r with hlt | heq | hgt
      · exact absurd hq (hmax' r hlt (by omega))
      · exact heq
      · exact absurd hq' (hmax r' hgt (by omega))
    subst hrr
    subst hg'
    unfold apply_gap_reset_logic
    rw [hs]

lemma is_reset_exists_index (w : List Bar) (θ : ℚ)
    (h : (apply_gap_reset_logic w θ).is_reset = true) :
    ∃ r, 1 ≤ r ∧ r < w.length ∧ qualifiesAt w θ r ∧
      (apply_gap_reset_logic w θ).gap_size = gapAt w r ∧
      (apply_gap_reset_logic w θ).closes = (w.drop r).map Bar.Close ∧
      (apply_gap_reset_logic w θ).reset_date = some (barAt w r).date := by
  rcases hs : scanForReset w θ (w.length - 1) with _ | ⟨r, g⟩
  · exact absurd h (by unfold apply_gap_reset_logic; rw [hs]; simp)
  · obtain ⟨h1, h2, hq, hg, _⟩ := scanForReset_some_spec w θ _ r g hs
    refine ⟨r, h1, by omega, hq, ?_, ?_, ?_⟩ <;>
      simp [apply_gap_reset_logic, hs, hg]

lemma ceilCent_ge (g : ℚ) : g ≤ ceilCent g := by
  rw [ceilCent, le_div_iff₀ (by norm_num : (0:ℚ) < 100)]
  exact Int.le_ceil (g * 100)

lemma check_eq_true_iff (df : List Bar) (h65 : 65 ≤ df.length) :
    check_vcp_criteria df = true ↔
      smaNow df ≤ cNow df ∧ smaPrev df < smaNow df ∧
        3 ≤ (gapResult df).closes.length ∧
        rangePct df ≤ dynamicThreshold (gapResult df) ∧
        vol20 df < vol60 df ∧ MIN_VOLUME_AVG ≤ vol20 df := by
  unfold check_vcp_criteria
  rw [if_neg (by omega), if_neg (by omega)]
  split_ifs with h1 h2 h3 h4 h5 h6 <;>
    simp_all [not_lt, not_le, ge_iff_le, gt_iff_lt]

lemma diagnose_fst_eq_true_iff (df : List Bar) (s : String) (h65 : 65 ≤ df.length) :
    (diagnose_single_stock df s).1 = true ↔
      smaNow df < cNow df ∧ smaPrev df < smaNow df ∧
        3 ≤ (gapResult df).closes.length ∧
        rangePct df ≤ dynamicThreshold (gapResult df) ∧
        vol20 df < vol60 df ∧ MIN_VOLUME_AVG ≤ vol20 df := by
  unfold diagnose_single_stock
  rw [if_neg (by omega)]
  simp only [trendPriceOk, trendSlopeOk, tooShort, rangeOk, volContraction,
    liquidityOk, Bool.and_eq_true, Bool.not_eq_true', decide_eq_true_iff,
    decide_eq_false_iff_not, not_lt, ge_iff_le, gt_iff_lt]
  tauto

lemma diagnose_snd_report (df : List Bar) (s : String) (h65 : 65 ≤ df.length) :
    (diagnose_single_stock df s).2 = DiagMsg.report (diagLines df) := by
  unfold diagnose_single_stock
  rw [if_neg (by omega)]

/-- C2: for every lookback window, the tightness threshold is exactly
ceil(g*100)/100 when a reset was found, the gap g of that reset strictly
exceeds the 4 percent gap threshold (so a gap of exactly 0.04 never
qualifies), the threshold is the fixed default 0.035 when no reset was
found, and ceil(g*100)/100 always dominates g. -/
theorem tightness_threshold_selection (w : List Bar) :
    ((apply_gap_reset_logic w GAP_THRESHOLD).is_reset = true →
        dynamicThreshold (apply_gap_reset_logic w GAP_THRESHOLD) =
          ceilCent (apply_gap_reset_logic w GAP_THRESHOLD).gap_size ∧
        GAP_THRESHOLD < (apply_gap_reset_logic w GAP_THRESHOLD).gap_size) ∧
    ((apply_gap_reset_logic w GAP_THRESHOLD).is_reset = false →
        dynamicThreshold (apply_gap_reset_logic w GAP_THRESHOLD) = DEFAULT_TIGHTNESS) ∧
    (∀ g : ℚ, g ≤ ceilCent g) := by
  refine ⟨?_, ?_, ceilCent_ge⟩
  · intro h
    refine ⟨by rw [dynamicThreshold, if_pos h], ?_⟩
    obtain ⟨r, _, _, hq, hg, _, _⟩ := is_reset_exists_index w GAP_THRESHOLD h
    rw [hg]
    exact hq.2
  · intro h
    rw [dynamicThreshold, h]
    simp

/-- C2 witness: the two-session window with a 5 percent gap instantiates
the reset branch of the threshold-selection theorem. -/
theorem tightness_threshold_selection_witness :
    dynamicThreshold (apply_gap_reset_logic wGap GAP_THRESHOLD) =
      ceilCent (apply_gap_reset_logic wGap GAP_THRESHOLD).gap_size ∧
    GAP_THRESHOLD < (apply_gap_reset_logic wGap GAP_THRESHOLD).gap_size :=
  (tightness_threshold_selection wGap).1 (by with_unfolding_all rfl)

/-- C3: the backward gap scan.  When no session of the window qualifies
(its predecessor closes nonzero and its gap strictly exceeds the
threshold), the output is the full Close series, flag false, no date and
magnitude 0.  When session r qualifies and no later session does, the
output is the Close sub-series from r on, flag true, the date of r and
the gap of r: the most recent qualifying session wins, never the largest
one, and session 0 (which has no predecessor) is never selected. -/
theorem gap_reset_characterization (w : List Bar) (θ : ℚ) :
    ((∀ i, 1 ≤ i → i < w.length → ¬ qualifiesAt w θ i) →
        apply_gap_reset_logic w θ = ⟨w.map Bar.Close, false, none, 0⟩) ∧
    (∀ r, 1 ≤ r → r < w.length → qualifiesAt w θ r →
        (∀ j, r < j → j < w.length → ¬ qualifiesAt w θ j) →
        apply_gap_reset_logic w θ =
          ⟨(w.drop r).map Bar.Close, true, some (barAt w r).date, gapAt w r⟩) :=
  ⟨apply_gap_reset_none w θ,
    fun r h1 h2 hq hmax => apply_gap_reset_some w θ r h1 h2 hq hmax⟩

/-- C3 witness: in the four-session window with a large old gap at
session 1 and a smaller qualifying gap at session 3, the scan resets at
session 3, although the session 1 gap also qualifies and is larger. -/
theorem gap_reset_characterization_witness :
    apply_gap_reset_logic wTwoGaps GAP_THRESHOLD =
      ⟨(wTwoGaps.drop 3).map Bar.Close, true, some (barAt wTwoGaps 3).date,
        gapAt wTwoGaps 3⟩ ∧
    qualifiesAt wTwoGaps GAP_THRESHOLD 1 ∧
    gapAt wTwoGaps 3 < gapAt wTwoGaps 1 :=
  ⟨(gap_reset_characterization wTwoGaps GAP_THRESHOLD).2 3 (by omega)
      (by decide) (of_decide_eq_true (by with_unfolding_all rfl))
      (fun j hj1 hj2 => by
        have h4 : wTwoGaps.length = 4 := by decide
        rw [h4] at hj2
        intro _
        omega),
    of_decide_eq_true (by with_unfolding_all rfl),
    of_decide_eq_true (by with_unfolding_all rfl)⟩

/-- C10: gap detection is total with respect to division.  A session
whose predecessor closes at 0 is skipped by the scan and can never be
the reset point: whenever a reset is reported there is a reset index r
at least 1 whose previous close is nonzero, and the reported gap and
truncated series come from that r.  The embedding itself is a total
function, matching the absence of any raised exception. -/
theorem gap_reset_zero_close_safe (w : List Bar) (θ : ℚ) :
    (apply_gap_reset_logic w θ).is_reset = true →
      ∃ r, 1 ≤ r ∧ r < w.length ∧ (barAt w (r - 1)).Close ≠ 0 ∧
        (apply_gap_reset_logic w θ).gap_size = gapAt w r ∧
        (apply_gap_reset_logic w θ).closes = (w.drop r).map Bar.Close := by
  intro h
  obtain ⟨r, h1, h2, hq, hg, hc, _⟩ := is_reset_exists_index w θ h
  exact ⟨r, h1, h2, hq.1, hg, hc⟩

/-- C10 witness: the two-session gap window reports a reset, so it has a
reset index with nonzero previous close. -/
theorem gap_reset_zero_close_safe_witness :
    ∃ r, 1 ≤ r ∧ r < wGap.length ∧ (barAt wGap (r - 1)).Close ≠ 0 ∧
      (apply_gap_reset_logic wGap GAP_THRESHOLD).gap_size = gapAt wGap r ∧
      (apply_gap_reset_logic wGap GAP_THRESHOLD).closes =
        (wGap.drop r).map Bar.Close :=
  gap_reset_zero_close_safe wGap GAP_THRESHOLD
    (of_decide_eq_true (by with_unfolding_all rfl))

/-- C5: whenever the effective post-reset close window has fewer than 3
sessions, the fail-fast evaluation returns false, the exhaustive
evaluation returns an overall fail, and its report carries the
too-short tightness failure line. -/
theorem short_effective_window_fails (df : List Bar) (s : String)
    (h65 : 65 ≤ df.length) (hshort : (gapResult df).closes.length < 3) :
    check_vcp_criteria df = false ∧ (diagnose_single_stock df s).1 = false ∧
      RLine.tooShortLine ∈ diagLines df := by
  refine ⟨?_, ?_, ?_⟩
  · cases hc : check_vcp_criteria df
    · rfl
    · have := ((check_eq_true_iff df h65).mp hc).2.2.1
      omega
  · cases hd : (diagnose_single_stock df s).1
    · rfl
    · have := ((diagnose_fst_eq_true_iff df s h65).mp hd).2.2.1
      omega
  · have ht : tooShort df = true := decide_eq_true hshort
    simp [diagLines, ht]

/-- C5 witness: the gap frame, whose last session opens 50 percent above
the previous close, leaves a one-session effective window and fails both
modes. -/
theorem short_effective_window_fails_witness :
    check_vcp_criteria Gf = false ∧ (diagnose_single_stock Gf "2330.TW").1 = false ∧
      RLine.tooShortLine ∈ diagLines Gf :=
  short_effective_window_fails Gf "2330.TW" (by decide)
    (of_decide_eq_true (by with_unfolding_all rfl))

lemma mem_priceAbove_iff (df : List Bar) :
    RLine.priceAboveMA ∈ diagLines df ↔ smaNow df < cNow df := by
  unfold diagLines
  split_ifs <;>
    simp_all [trendPriceOk, trendSlopeOk, decide_eq_true_iff, gt_iff_lt]

lemma mem_maRising_iff (df : List Bar) :
    RLine.maRising ∈ diagLines df ↔ smaPrev df < smaNow df := by
  unfold diagLines
  split_ifs <;>
    simp_all [trendPriceOk, trendSlopeOk, decide_eq_true_iff, gt_iff_lt]

/-- C4 counterexample: a 65-session series whose current close exactly
equals the current SMA-60, so condition (a) of the claimed iff is false,
nevertheless passes the whole fail-fast evaluation: the fail-fast trend
gate let it through, because the source only rejects close strictly
below the SMA-60. -/
theorem trend_boundary_counterexample :
    cNow Eb = smaNow Eb ∧ check_vcp_criteria Eb = true :=
  ⟨by with_unfolding_all rfl, by with_unfolding_all rfl⟩

/-- C4 (amended): in exhaustive mode the trend criterion passes iff the
current close is strictly above the current SMA-60 and the SMA-60 is
strictly above its value five slots back; in fail-fast mode condition
(a) is non-strict: the evaluation rejects when the close is strictly
below the SMA-60 or the slope is flat or falling, and passing implies
close at or above the SMA-60 with a strictly rising slope.  Fewer than
65 valid sessions yield a clean fail in both modes, not an exception. -/
theorem trend_filter_amended :
    (∀ (df : List Bar) (s : String), 65 ≤ df.length →
        (diagnose_single_stock df s).2 = DiagMsg.report (diagLines df) ∧
          ((RLine.priceAboveMA ∈ diagLines df ∧ RLine.maRising ∈ diagLines df) ↔
            (smaNow df < cNow df ∧ smaPrev df < smaNow df))) ∧
    (∀ df : List Bar, 65 ≤ df.length →
        ((cNow df < smaNow df ∨ smaNow df ≤ smaPrev df) →
          check_vcp_criteria df = false) ∧
        (check_vcp_criteria df = true →
          smaNow df ≤ cNow df ∧ smaPrev df < smaNow df)) ∧
    (∀ (df : List Bar) (s : String), df.length < 65 →
        check_vcp_criteria df = false ∧
          diagnose_single_stock df s = (false, DiagMsg.insufficientData df.length)) := by
  refine ⟨?_, ?_, ?_⟩
  · intro df s h65
    exact ⟨diagnose_snd_report df s h65,
      by rw [mem_priceAbove_iff, mem_maRising_iff]⟩
  · intro df h65
    constructor
    · intro hbad
      cases hc : check_vcp_criteria df
      · rfl
      · obtain ⟨ha, hb, _⟩ := (check_eq_true_iff df h65).mp hc
        rcases hbad with hbad | hbad
        · exact absurd ha (not_le.mpr hbad)
        · exact absurd hb (not_lt.mpr hbad)
    · intro hc
      obtain ⟨ha, hb, _⟩ := (check_eq_true_iff df h65).mp hc
      exact ⟨ha, hb⟩
  · intro df s hlt
    constructor
    · unfold check_vcp_criteria
      rw [if_pos hlt]
    · unfold diagnose_single_stock
      rw [if_pos hlt]

/-- C4 witness: the strictly passing frame instantiates the exhaustive
trend characterisation, and the empty frame instantiates the clean
insufficient-data fail of both modes. -/
theorem trend_filter_amended_witness :
    ((diagnose_single_stock Pf "2330.TW").2 = DiagMsg.report (diagLines Pf)) ∧
    check_vcp_criteria ([] : List Bar) = false ∧
    diagnose_single_stock ([] : List Bar) "2330.TW" =
      (false, DiagMsg.insufficientData 0) :=
  ⟨(trend_filter_amended.1 Pf "2330.TW" (by decide)).1,
    (trend_filter_amended.2.2 [] "2330.TW" (by decide)).1,
    (trend_filter_amended.2.2 [] "2330.TW" (by decide)).2⟩

/-- C1 counterexample: on the boundary frame, whose current close equals
the current SMA-60 with every other criterion satisfied, the fail-fast
evaluation passes while the exhaustive evaluation fails: the two modes
disagree exactly on the boundary case the claim singles out. -/
theorem modes_disagree_at_boundary :
    check_vcp_criteria Eb = true ∧ (diagnose_single_stock Eb "2330.TW").1 = false :=
  ⟨by with_unfolding_all rfl, by with_unfolding_all rfl⟩

/-- C1 (amended): for every series of at least 65 valid sessions whose
current close is not exactly equal to the current SMA-60, the fail-fast
and the exhaustive evaluation return the same overall verdict.  On the
excluded boundary the fail-fast mode can pass while the exhaustive mode
fails, as the counterexample shows. -/
theorem modes_agree_off_boundary (df : List Bar) (s : String)
    (h65 : 65 ≤ df.length) (hne : cNow df ≠ smaNow df) :
    check_vcp_criteria df = (diagnose_single_stock df s).1 := by
  cases hc : check_vcp_criteria df <;> cases hd : (diagnose_single_stock df s).1
  · rfl
  · obtain ⟨ha, rest⟩ := (diagnose_fst_eq_true_iff df s h65).mp hd
    have hct : check_vcp_criteria df = true :=
      (check_eq_true_iff df h65).mpr ⟨le_of_lt ha, rest⟩
    rw [hc] at hct
    exact absurd hct (by simp)
  · obtain ⟨ha, rest⟩ := (check_eq_true_iff df h65).mp hc
    have hlt : smaNow df < cNow df := lt_of_le_of_ne ha (Ne.symm hne)
    have hdt : (diagnose_single_stock df s).1 = true :=
      (diagnose_fst_eq_true_iff df s h65).mpr ⟨hlt, rest⟩
    rw [hd] at hdt
    exact absurd hdt (by simp)
  · rfl

/-- C1 witness: on the strictly passing frame the current close differs
from the SMA-60 and both modes agree (both pass). -/
theorem modes_agree_off_boundary_witness :
    65 ≤ Pf.length ∧ cNow Pf ≠ smaNow Pf ∧
      check_vcp_criteria Pf = (diagnose_single_stock Pf "2330.TW").1 :=
  ⟨by decide, of_decide_eq_true (by with_unfolding_all rfl),
    modes_agree_off_boundary Pf "2330.TW" (by decide)
      (of_decide_eq_true (by with_unfolding_all rfl))⟩

/-- C9: the diagnostic evaluation is a pure function of the input frame
and symbol: two invocations on equal inputs return an equal pass flag
and an equal report, so the rendered text, a deterministic function of
that report data, is byte-identical. -/
theorem diagnose_deterministic (df1 df2 : List Bar) (s1 s2 : String)
    (hdf : df1 = df2) (hs : s1 = s2) :
    diagnose_single_stock df1 s1 = diagnose_single_stock df2 s2 := by
  subst hdf
  subst hs
  rfl

/-- C9 witness: two invocations on the boundary frame coincide. -/
theorem diagnose_deterministic_witness :
    diagnose_single_stock Eb "2330.TW" = diagnose_single_stock Eb "2330.TW" :=
  diagnose_deterministic Eb Eb "2330.TW" "2330.TW" rfl rfl

lemma normalizeCols_bars (r : Raw) : normalizeCols r = r.bars := by
  cases r <;> rfl

/-- Provider with data only under the primary suffix of symbol 2330:
every other query comes back empty. -/
def provTW : String → Raw :=
  fun s => if s = "2330.TW" then Raw.flatCols Pf else Raw.flatCols []

/-- C6: a symbol whose last available bar is not dated at the requested
scan date is silently dropped by the bulk per-symbol step and never
enters the accumulated result list, even when the pattern criteria all
pass; the diagnostic path instead returns a failure carrying both the
requested and the actual last date. -/
theorem date_misalignment_handling :
    (∀ (frames : List (String × List Bar)) (symbol : String) (df : List Bar)
        (t : Nat) (batch : List String),
        frames.lookup symbol = some df → df.isEmpty = false → lastDate df ≠ t →
        check_vcp_criteria df = true →
        scanProcessSymbol (BatchData.multi frames) symbol t = false ∧
          symbol ∉ scanBatch (BatchData.multi frames) batch t) ∧
    (∀ (provider : String → Raw) (symbolInput : String) (t : Nat),
        (selectDownload provider (resolveSymbol symbolInput)).2.bars.isEmpty = false →
        lastDate (selectDownload provider (resolveSymbol symbolInput)).2.bars ≠ t →
        fetch_and_diagnose provider symbolInput t =
          (false, FetchMsg.dateMismatch t
            (lastDate (selectDownload provider (resolveSymbol symbolInput)).2.bars))) := by
  constructor
  · intro frames symbol df t batch hlk hne hdate _
    have hproc : scanProcessSymbol (BatchData.multi frames) symbol t = false := by
      simp [scanProcessSymbol, hlk, hne, hdate]
    exact ⟨hproc, by simp [scanBatch, List.mem_filter, hproc]⟩
  · intro provider si t hne hdate
    simp [fetch_and_diagnose, normalizeCols_bars, hne, hdate]

/-- C6 witness: the strictly passing frame, requested at date 999 while
its last bar is dated 64, is dropped by the bulk step and reported as a
date mismatch by the diagnostic path. -/
theorem date_misalignment_handling_witness :
    (scanProcessSymbol (BatchData.multi [("2330.TW", Pf)]) "2330.TW" 999 = false ∧
      "2330.TW" ∉ scanBatch (BatchData.multi [("2330.TW", Pf)]) ["2330.TW"] 999) ∧
    fetch_and_diagnose provTW "2330" 999 =
      (false, FetchMsg.dateMismatch 999
        (lastDate (selectDownload provTW (resolveSymbol "2330")).2.bars)) :=
  ⟨date_misalignment_handling.1 [("2330.TW", Pf)] "2330.TW" Pf 999 ["2330.TW"]
      (by with_unfolding_all rfl) (by with_unfolding_all rfl)
      (of_decide_eq_true (by with_unfolding_all rfl))
      (by with_unfolding_all rfl),
    date_misalignment_handling.2 provTW "2330" 999
      (by with_unfolding_all rfl)
      (of_decide_eq_true (by with_unfolding_all rfl))⟩

/-- C7 counterexample: a frame that passes every pattern criterion, with
its last bar exactly at the requested date, is still skipped by the bulk
per-symbol step when the batch download arrives with flat single-level
columns: the bulk path does not normalise the flat layout, it only
consults two-level frames. -/
theorem flat_layout_skipped_counterexample :
    check_vcp_criteria Pf = true ∧ lastDate Pf = 64 ∧
      scanProcessSymbol (BatchData.flat Pf) "2330.TW" 64 = false :=
  ⟨by with_unfolding_all rfl, by with_unfolding_all rfl, rfl⟩

/-- C7 (amended): the bulk per-symbol step evaluates a symbol only when
the batch frame has two-level columns; a flat single-level batch frame
causes every symbol of the batch to be skipped.  The diagnostic path
normalises both layouts to the same rows and evaluates them. -/
theorem column_layout_amended :
    (∀ (F : List Bar) (s : String) (t : Nat),
        scanProcessSymbol (BatchData.flat F) s t = false) ∧
    (∀ (frames : List (String × List Bar)) (s : String) (t : Nat) (df : List Bar),
        frames.lookup s = some df → df.isEmpty = false → lastDate df = t →
        scanProcessSymbol (BatchData.multi frames) s t = check_vcp_criteria df) ∧
    (∀ bars : List Bar, normalizeCols (Raw.multiCols bars) = bars ∧
        normalizeCols (Raw.flatCols bars) = bars) ∧
    (∀ (provider : String → Raw) (symbolInput : String) (t : Nat),
        (selectDownload provider (resolveSymbol symbolInput)).2.bars.isEmpty = false →
        lastDate (selectDownload provider (resolveSymbol symbolInput)).2.bars = t →
        fetch_and_diagnose provider symbolInput t =
          ((diagnose_single_stock
              (selectDownload provider (resolveSymbol symbolInput)).2.bars
              (selectDownload provider (resolveSymbol symbolInput)).1).1,
            FetchMsg.reportMsg (selectDownload provider (resolveSymbol symbolInput)).1 t
              (diagnose_single_stock
                (selectDownload provider (resolveSymbol symbolInput)).2.bars
                (selectDownload provider (resolveSymbol symbolInput)).1).2)) := by
  refine ⟨fun F s t => rfl, ?_, fun bars => ⟨rfl, rfl⟩, ?_⟩
  · intro frames s t df hlk hne hdate
    simp [scanProcessSymbol, hlk, hne, hdate]
  · intro provider si t hne hdate
    simp [fetch_and_diagnose, normalizeCols_bars, hne, hdate]

/-- C7 witness: a two-level batch frame for the passing frame is
evaluated to its fail-fast verdict, and the diagnostic path run against
a flat-layout provider reaches the diagnostic evaluation. -/
theorem column_layout_amended_witness :
    scanProcessSymbol (BatchData.multi [("2330.TW", Pf)]) "2330.TW" 64 =
      check_vcp_criteria Pf ∧
    fetch_and_diagnose provTW "2330" 64 =
      ((diagnose_single_stock (selectDownload provTW (resolveSymbol "2330")).2.bars
          (selectDownload provTW (resolveSymbol "2330")).1).1,
        FetchMsg.reportMsg (selectDownload provTW (resolveSymbol "2330")).1 64
          (diagnose_single_stock (selectDownload provTW (resolveSymbol "2330")).2.bars
            (selectDownload provTW (resolveSymbol "2330")).1).2) :=
  ⟨column_layout_amended.2.1 [("2330.TW", Pf)] "2330.TW" 64 Pf
      (by with_unfolding_all rfl) (by with_unfolding_all rfl)
      (by with_unfolding_all rfl),
    column_layout_amended.2.2.2 provTW "2330" 64
      (by with_unfolding_all rfl) (by with_unfolding_all rfl)⟩

/-- C8 counterexample: for the already-suffixed input 2330.TWO the
provider holds data under the primary suffix 2330.TW, yet the
diagnostic path reports not-found: it queries the given suffix only and
never tries the primary suffix first, contradicting the claim that the
primary-then-secondary chain applies whether or not the identifier
carries a suffix. -/
theorem suffix_fallback_counterexample :
    (provTW "2330.TW").bars.isEmpty = false ∧
      fetch_and_diagnose provTW "2330.TWO" 64 =
        (false, FetchMsg.notFound "2330.TWO") :=
  ⟨by with_unfolding_all rfl, by with_unfolding_all rfl⟩

/-- C8 (amended): only a bare symbol identifier goes through the
fallback chain: primary suffix first, secondary suffix when the first
result is empty.  An identifier already carrying an exchange suffix is
queried exactly as given, with no fallback.  In both shapes the explicit
not-found failure is returned precisely when the finally selected
download is empty. -/
theorem suffix_resolution_amended (provider : String → Raw)
    (symbolInput : String) (t : Nat) :
    (hasExchangeSuffix (resolveSymbol symbolInput) = false →
        selectDownload provider (resolveSymbol symbolInput) =
          (if (provider (resolveSymbol symbolInput ++ ".TW")).bars.isEmpty then
            (resolveSymbol symbolInput ++ ".TWO",
              provider (resolveSymbol symbolInput ++ ".TWO"))
          else (resolveSymbol symbolInput ++ ".TW",
            provider (resolveSymbol symbolInput ++ ".TW")))) ∧
    (hasExchangeSuffix (resolveSymbol symbolInput) = true →
        selectDownload provider (resolveSymbol symbolInput) =
          (resolveSymbol symbolInput, provider (resolveSymbol symbolInput))) ∧
    ((selectDownload provider (resolveSymbol symbolInput)).2.bars.isEmpty = true →
        fetch_and_diagnose provider symbolInput t =
          (false, FetchMsg.notFound symbolInput)) := by
  refine ⟨?_, ?_, ?_⟩
  · intro h
    unfold selectDownload firstTry
    rw [h]
    by_cases he : (provider (resolveSymbol symbolInput ++ ".TW")).bars.isEmpty <;>
      simp [he]
  · intro h
    unfold selectDownload firstTry
    rw [h]
    simp
  · intro h
    simp [fetch_and_diagnose, h]

/-- C8 witness: the bare input 2330 resolves through the fallback chain
against the primary-suffix provider, and the bare input 9999, empty
under both suffixes, yields the explicit not-found failure. -/
theorem suffix_resolution_amended_witness :
    selectDownload provTW (resolveSymbol "2330") =
      (if (provTW (resolveSymbol "2330" ++ ".TW")).bars.isEmpty then
        (resolveSymbol "2330" ++ ".TWO", provTW (resolveSymbol "2330" ++ ".TWO"))
      else (resolveSymbol "2330" ++ ".TW", provTW (resolveSymbol "2330" ++ ".TW"))) ∧
    fetch_and_diagnose provTW "9999" 64 = (false, FetchMsg.notFound "9999") :=
  ⟨(suffix_resolution_amended provTW "2330" 64).1 (by with_unfolding_all rfl),
    (suffix_resolution_amended provTW "9999" 64).2.2
      (by with_unfolding_all rfl)⟩

end Scanner
